import Mathlib

/-!
Verification of the hop-node state-synchronization core: a shallow embedding
of the Transfer store (TransfersDb.ts), the SyncWatcher settlement and
solvency logic, and the L2ExitWatcher finality path, with theorems checking
the natural-language specification against the code.

JS conventions embedded here: record fields that may be absent are Option;
JS truthiness of numbers (0 is falsy), strings (empty is falsy) and booleans
is made explicit with the truthy* helpers; BigNumber values are Int (a
BigNumber object is always truthy, regardless of its numeric value).
-/

namespace HopVerify

/-- JS truthiness of an optional string: present and non-empty. -/
def truthyStr (s : Option String) : Bool :=
  match s with
  | none => false
  | some v => v != ""

/-- JS truthiness of an optional number: present and non-zero. -/
def truthyNat (n : Option Nat) : Bool :=
  match n with
  | none => false
  | some v => v != 0

/-- JS truthiness of an optional integer timestamp: present and non-zero. -/
def truthyInt (n : Option Int) : Bool :=
  match n with
  | none => false
  | some v => v != 0

/-- JS truthiness of an optional boolean: present and true. -/
def truthyBool (b : Option Bool) : Bool := b == some true

/-- Modelled from the spec: the 7-day recent-transfer window constant
OneWeekMs (src/constants is not under src/; the spec fixes the window at
7 days). -/
def OneWeekMs : Int := 7 * 24 * 60 * 60 * 1000

/-- Modelled from the spec: the 10-minute staleness constant TenMinutesMs
(src/constants is not under src/; the spec fixes it at 10 minutes). -/
def TenMinutesMs : Int := 10 * 60 * 1000

/-- Modelled from the spec: the transaction-error kinds distinguished by the
store views; the spec only distinguishes the bonder-fee-too-low error from
every other error (src/constants is not under src/). -/
inductive TxError where
  | BonderFeeTooLow
  | OtherError
  deriving Repr, DecidableEq

/-- The semantics of the JS expression (1 << k) on a number k: the shift
count is reduced mod 32 and the result is a signed 32-bit integer, so
(1 << 31) is negative and (1 << 32) is 1. -/
def jsShl1 (k : Nat) : Int :=
  let e := k % 32
  if e == 31 then -(2 ^ 31) else (2 : Int) ^ e

/-- The Transfer entity of TransfersDb.ts: every field of the TS type that
the claims touch, all optional exactly as in the TS type. BigNumber fields
are Int. -/
structure Transfer where
  transferRootId : Option String := none
  transferRootHash : Option String := none
  transferId : Option String := none
  destinationChainId : Option Nat := none
  sourceChainId : Option Nat := none
  withdrawalBondSettled : Option Bool := none
  withdrawalBonded : Option Bool := none
  withdrawalBonder : Option String := none
  withdrawalBondedTxHash : Option String := none
  withdrawalBondTxError : Option TxError := none
  withdrawalBondBackoffIndex : Option Nat := none
  bondWithdrawalAttemptedAt : Option Nat := none
  isTransferSpent : Option Bool := none
  transferSpentTxHash : Option String := none
  recipient : Option String := none
  amount : Option Int := none
  amountOutMin : Option Int := none
  bonderFee : Option Int := none
  transferNonce : Option String := none
  deadline : Option Int := none
  transferSentTimestamp : Option Nat := none
  transferSentTxHash : Option String := none
  transferSentBlockNumber : Option Nat := none
  transferSentIndex : Option Nat := none
  isBondable : Option Bool := none
  committed : Option Bool := none
  isNotFound : Option Bool := none
  deriving Repr, DecidableEq

/-- The fixed table of known-bad transfer ids from TransfersDb.ts
(invalidTransferIds), verbatim. -/
def invalidTransferIds : List String := [
  "0x8395ab39248878d5defddff3df327b77799edd01f028ba62e16bedd1f372015b",
  "0xa92c1740f4ab054cdc09f6e77d232ab2c728bbf1c073cafe708cb7fa9df6526e",
  "0x73a5569c26af5b6d4f3f258a22097b7e3721fa77e3ba32d3c596ca9b08b8ab46",
  "0x569b9119aef16daf07939bbc8ef1145814be4be4b22c042e947a7c259fa79e17",
  "0x2d0d07f92eb66daf9bd5a44a803ee844b9487ee72b55d85618a6a6e56ed4691f",
  "0x023e51147d967642f228994c94e60f0c5d1afb524c315ce1c7c571c9cc08a36d",
  "0x9d726dc69c3aee3745be3add674c3b148e0816af7d84a6bb8981b59302ce72e3",
  "0x85fa8664b6c72862661df1d45cee055f349def548756c94443d4e030aecd9d7e",
  "0x67be971e8e8190b08a1c7208ce4ea6f40d6ef7e252a1a1845dbea167dc1b3855",
  "0x656765c08c9638c29e10463632321244511a4fa984db9f542dd94f880b436e67",
  "0xa255c721a0cf6e4e52bda8b936d869a117e341ab1cdd39bd1dd68a621df46596",
  "0x3eaed4ec54370d76be107f1d84857ea603233f384609901e3c8c05784cd49811",
  "0x4c4d1c19b469dad3624b0d2c2743bddf7c1222049db02566cfa64a049128f85b",
  "0x8e0c9909498017971e64e0d17775a2f3b37512336876bdcdce4bdcc9e237833a",
  "0xb634f0ccef80ea6dfba17431f3ab91390cfcb8466663d68f1614458cdaefcfe1",
  "0x04ec46f6102c9a365ef44092f95b58f5ac2cc06127865d996e91ef927b1b1d9c",
  "0xf8be440ccf9b954579498a3a64583ae9e9a5023fba4ba3423ad0a3c8cc52bc74",
  "0x663555a55a31fa11e29b6717b50b807fb756f71b54731aa420387d5fdf52d439",
  "0xe31414ee86a02d7ee9b4ba668c4f4b3ba1d74c0c94801dcb21b14550b03c1ab1",
  "0xcd8c09d36af2aa630727f7f7235e04e1927b3cb2a32cfe3ab03d4239c5b93cef",
  "0x8aa444b26c743223e852e1cad4a0ed9b4daa9a1188fd8f6e3c9114f8c5183c2e",
  "0xc9eea07bce28dd2b04fc566238b8b3163f4240aab7f66131cf8ba7a4eac224dc",
  "0xdfd2d7c7963060c5876a847f9617007ec0bb07b8b7a32d394d8001d7fff2f368",
  "0x984c375707e786505598e93977f79cf9e88cf509181d7e2084e81f84a0016e87",
  "0xc8b763bdece230a536c7ea987b62224a39b7ba6212bdc9734ea12f976790f4c7",
  "0xffdffa9d6d75952f1868a5ea9ed9e5d27bdc38fac6dd722537e834bebdd21d5b",
  "0xad7e47441c1733b884681a934748fb215392f758741c51892991ba987efe006e",
  "0x3526b99bec75d866aaf98fb28f5e7c67e76262a306a1a1367e17f8813f21adbb",
  "0xa1b035c49c007c15d9b90d55f9af6f49c175b2cec1f45301889140ed1ba2c251",
  "0xc71b67e6726793bc1cdb6c0ff10f321efd1c3f4a7176da9ff82df5759a9d74bd",
  "0x81a0ca70b9f643f089191e74faa0beadd1979b204d99173828199112e0466ef7",
  "0x91d10dc8fbde23d281509df82e13d87f4373be39ff80413100009d65a9fb1840",
  "0x2f5dc27ce8dc88e1c41dc4baf51b09282b784058d8e0359268eaf2f22073e82c",
  "0x026bb7e5d30055b13ab89bfdd297de734951e8d6a83464b18a16281c80f7407e",
  "0x9f56ef8005e3a144ce40f0428950e7da6d3188a496e50a33a4b8c44fc61ec2c6",
  "0xba26e75e0bb79622c54ab5e25b92178abbf181cbc359220a4824d1bfffb1934a",
  "0x7f3d5d76891d308a7072704fa8a655e153a2b7a1a94bca943a159011500e79da",
  "0xfec2d05eac28f889a38b4bc4314390d221202d4066656ecbf2e967f3249b2d78",
  "0x0454b6cf9f7e655104acfebd27d79599b5a867fe3488a8e424a91ca29b4595a1",
  "0xfa003f1d5c8fecc1c1f6c3bd7e7827227b9013aaa94743720e76fca359a189f0",
  "0xbab151edb39867b74cc7e307ed5659481815ed0a673dde4272df872677530c9b",
  "0xd96164911baec4413b91be2c44859b54bf6c84dab739723b7a9b864721ffefdc",
  "0x7d82df81d192ab9d63efe5a3e13d369efc16c9aa7afa7d33b8278a6f2b7e58b3",
  "0x4cd3448843d0cb452682aadba30e333838eddd0d502887efdad86f1130271251",
  "0xd9bc333371cf9f57c9b0b7c9981754d9909124ca47a6083b80a7e6d65b48f9c9",
  "0x4c131e7af19d7dd1bc8ffe8e937ff8fcdb99bb1f09cc2e041f031e8c48d4d275",
  "0x372607f93258c73eb9a7e3298bede2a317ec66708ee542fd9772fae18808b980",
  "0xcfd09fc9dca36047347ee31e7580b43071b8ee4aacd7394e46037b10c40d3f98"]

/-- Strict bytewise (code-point) lexicographic order on char lists: the
order LevelDB applies to keys (all keys here are ASCII, so code-point
order coincides with byte order). -/
def charListLt : List Char → List Char → Bool
  | [], [] => false
  | [], _ :: _ => true
  | _ :: _, [] => false
  | a :: as, b :: bs =>
    if a.toNat < b.toNat then true
    else if b.toNat < a.toNat then false
    else charListLt as bs

/-- Reflexive bytewise lexicographic order on char lists. -/
def charListLe : List Char → List Char → Bool
  | [], _ => true
  | _ :: _, [] => false
  | a :: as, b :: bs =>
    if a.toNat < b.toNat then true
    else if b.toNat < a.toNat then false
    else charListLe as bs

/-- Strict key order on strings (bytewise, as LevelDB compares keys). -/
def strLt (a b : String) : Bool := charListLt a.data b.data

/-- Reflexive key order on strings (bytewise, as LevelDB compares keys). -/
def strLe (a b : String) : Bool := charListLe a.data b.data

/-- Association-list lookup with String keys (the key-value store primary
lookup, getById). -/
def alistLookup {α : Type} : List (String × α) → String → Option α
  | [], _ => none
  | (k0, v) :: rest, k => if k0 == k then some v else alistLookup rest k

/-- Association-list put: replace the value at an existing key, append
otherwise (the key-value store write primitive for the main entity bucket,
where iteration order is not depended on). -/
def alistPut {α : Type} : List (String × α) → String → α → List (String × α)
  | [], k, v => [(k, v)]
  | (k0, v0) :: rest, k, v =>
    if k0 == k then (k, v) :: rest else (k0, v0) :: alistPut rest k v

/-- Sorted insert by key (LevelDB keeps keys in ascending byte order; all
keys here are ASCII so byte order is character order). Replaces the value
when the key already exists. -/
def sortedPut {α : Type} : List (String × α) → String → α → List (String × α)
  | [], k, v => [(k, v)]
  | (k0, v0) :: rest, k, v =>
    if k == k0 then (k, v) :: rest
    else if strLt k k0 then (k, v) :: (k0, v0) :: rest
    else (k0, v0) :: sortedPut rest k v

/-- Field-level merge of a partial update into a stored value: the update
value wins when present (the JS object-spread upsert of BaseDb._update).
Modelled from the spec: BaseDb is not under src/; section 4.1 specifies
upsert as merging fields into the stored entity, creating it if absent. -/
def mergeField {α : Type} (p old : Option α) : Option α :=
  match p with
  | some v => some v
  | none => old

/-- Merge a partial Transfer into a stored Transfer, field by field.
Modelled from the spec: the BaseDb._update merge (section 4.1 upsert). -/
def mergeTransfer (old p : Transfer) : Transfer where
  transferRootId := mergeField p.transferRootId old.transferRootId
  transferRootHash := mergeField p.transferRootHash old.transferRootHash
  transferId := mergeField p.transferId old.transferId
  destinationChainId := mergeField p.destinationChainId old.destinationChainId
  sourceChainId := mergeField p.sourceChainId old.sourceChainId
  withdrawalBondSettled := mergeField p.withdrawalBondSettled old.withdrawalBondSettled
  withdrawalBonded := mergeField p.withdrawalBonded old.withdrawalBonded
  withdrawalBonder := mergeField p.withdrawalBonder old.withdrawalBonder
  withdrawalBondedTxHash := mergeField p.withdrawalBondedTxHash old.withdrawalBondedTxHash
  withdrawalBondTxError := mergeField p.withdrawalBondTxError old.withdrawalBondTxError
  withdrawalBondBackoffIndex := mergeField p.withdrawalBondBackoffIndex old.withdrawalBondBackoffIndex
  bondWithdrawalAttemptedAt := mergeField p.bondWithdrawalAttemptedAt old.bondWithdrawalAttemptedAt
  isTransferSpent := mergeField p.isTransferSpent old.isTransferSpent
  transferSpentTxHash := mergeField p.transferSpentTxHash old.transferSpentTxHash
  recipient := mergeField p.recipient old.recipient
  amount := mergeField p.amount old.amount
  amountOutMin := mergeField p.amountOutMin old.amountOutMin
  bonderFee := mergeField p.bonderFee old.bonderFee
  transferNonce := mergeField p.transferNonce old.transferNonce
  deadline := mergeField p.deadline old.deadline
  transferSentTimestamp := mergeField p.transferSentTimestamp old.transferSentTimestamp
  transferSentTxHash := mergeField p.transferSentTxHash old.transferSentTxHash
  transferSentBlockNumber := mergeField p.transferSentBlockNumber old.transferSentBlockNumber
  transferSentIndex := mergeField p.transferSentIndex old.transferSentIndex
  isBondable := mergeField p.isBondable old.isBondable
  committed := mergeField p.committed old.committed
  isNotFound := mergeField p.isNotFound old.isNotFound

/-- The persistent state of TransfersDb: the main entity bucket keyed by
transferId, the timestamped-key sub-db (key transfer:ts:id, value the
transferId, kept in ascending key order as LevelDB does), and the
incomplete-items sub-db (the set of ids it holds). -/
structure TransfersDbState where
  entities : List (String × Transfer) := []
  subDb : List (String × String) := []
  incompletes : List String := []
  deriving Repr, DecidableEq

/-- TransfersDb.isItemIncomplete, verbatim from the source: items without a
transferId and items in the invalidTransferIds table are never incomplete;
otherwise incomplete when a required field is missing. -/
def isItemIncomplete (item : Transfer) : Bool :=
  if !truthyStr item.transferId then false
  else if invalidTransferIds.contains (item.transferId.getD "") then false
  else
    !truthyNat item.sourceChainId ||
    !truthyNat item.destinationChainId ||
    !truthyNat item.transferSentBlockNumber ||
    (truthyNat item.transferSentBlockNumber && !truthyNat item.transferSentTimestamp) ||
    (truthyStr item.withdrawalBondedTxHash && !truthyStr item.withdrawalBonder)

/-- TransfersDb.getTimestampedKey: the synthetic timestamped key
transfer:sentTimestamp:transferId, defined only when both parts are
truthy. -/
def getTimestampedKey (transfer : Transfer) : Option String :=
  if truthyNat transfer.transferSentTimestamp && truthyStr transfer.transferId then
    some ("transfer:" ++ toString (transfer.transferSentTimestamp.getD 0) ++ ":"
      ++ transfer.transferId.getD "")
  else none

/-- TransfersDb.getTimestampedKeyValueForUpdate: returns the key-value pair
to write only when the key can be built and is not already present in the
sub-db (first write wins). -/
def getTimestampedKeyValueForUpdate (s : TransfersDbState) (transfer : Transfer) :
    Option (String × String) :=
  match getTimestampedKey transfer with
  | none => none
  | some key =>
    if !truthyStr transfer.transferId then none
    else
      match alistLookup s.subDb key with
      | some _ => none
      | none => some (key, transfer.transferId.getD "")

/-- TransfersDb.updateIncompleteItem applied to a stored item: the
incomplete-items sub-db ends up containing the id exactly when the item is
incomplete (upsert when incomplete and absent, delete when complete and
present). -/
def updateIncompleteItem (incompletes : List String) (item : Transfer) : List String :=
  match item.transferId with
  | none => incompletes
  | some transferId =>
    let isIncomplete := isItemIncomplete item
    let exists0 := incompletes.contains transferId
    if isIncomplete && !exists0 then incompletes ++ [transferId]
    else if !isIncomplete && exists0 then incompletes.filter (fun x => x != transferId)
    else incompletes

/-- TransfersDb.update: sets transferId on the partial, writes the
timestamped key if it is new, merges the partial into the stored entity,
and recomputes the incomplete-items entry from the stored result. -/
def dbUpdate (s : TransfersDbState) (transferId : String) (transfer : Transfer) :
    TransfersDbState :=
  let patch := { transfer with transferId := some transferId }
  let subDb :=
    match getTimestampedKeyValueForUpdate s patch with
    | some (k, v) => sortedPut s.subDb k v
    | none => s.subDb
  let merged := mergeTransfer ((alistLookup s.entities transferId).getD {}) patch
  let entities := alistPut s.entities transferId merged
  let incompletes := updateIncompleteItem s.incompletes merged
  { entities := entities, subDb := subDb, incompletes := incompletes }

/-- The source-chain filter shared by the domain views: reject when the
filter carries a truthy sourceChainId strictly different from the item
field. -/
def sourceChainMismatch (filterSourceChainId : Option Nat) (itemSourceChainId : Option Nat) :
    Bool :=
  match filterSourceChainId with
  | some f => f != 0 && itemSourceChainId != some f
  | none => false

/-- The per-item filter of TransfersDb.getUncommittedTransfers: sent, no
root reference yet, not marked committed. -/
def uncommittedPred (filterSourceChainId : Option Nat) (item : Transfer) : Bool :=
  if sourceChainMismatch filterSourceChainId item.sourceChainId then false
  else
    truthyStr item.transferId &&
    !truthyStr item.transferRootId &&
    truthyStr item.transferSentTxHash &&
    !truthyBool item.committed

/-- The per-item filter of TransfersDb.getUnbondedSentTransfers.
baseRetryDelayMs is the flat retry delay TxRetryDelayMs (an external
constant of src/constants, kept as a parameter), now is Date.now(). The
bonder-fee-too-low branch computes the exponential backoff delay with the
32-bit JS shift; a delay beyond one week rejects the item outright. -/
def unbondedSentPred (baseRetryDelayMs now : Int) (filterSourceChainId : Option Nat)
    (item : Transfer) : Bool :=
  if !truthyStr item.transferId then false
  else if invalidTransferIds.contains (item.transferId.getD "") then false
  else if sourceChainMismatch filterSourceChainId item.sourceChainId then false
  else
    let timestampOk :=
      if truthyNat item.bondWithdrawalAttemptedAt then
        if item.withdrawalBondTxError == some TxError.BonderFeeTooLow then
          let delay : Int :=
            baseRetryDelayMs + jsShl1 (item.withdrawalBondBackoffIndex.getD 0) * 60 * 1000
          if delay > OneWeekMs then false
          else decide ((item.bondWithdrawalAttemptedAt.getD 0 : Int) + delay < now)
        else decide ((item.bondWithdrawalAttemptedAt.getD 0 : Int) + baseRetryDelayMs < now)
      else true
    truthyStr item.transferId &&
    truthyNat item.transferSentTimestamp &&
    !truthyBool item.withdrawalBonded &&
    truthyStr item.transferSentTxHash &&
    truthyBool item.isBondable &&
    !truthyBool item.isTransferSpent &&
    timestampOk

/-- The per-item filter of TransfersDb.getBondedTransfersWithoutRoots:
bonded and still without a transferRootHash. -/
def bondedWithoutRootsPred (filterSourceChainId : Option Nat) (item : Transfer) : Bool :=
  if sourceChainMismatch filterSourceChainId item.sourceChainId then false
  else truthyBool item.withdrawalBonded && !truthyStr item.transferRootHash

/-- getUncommittedTransfers as a filter over the recent-window transfer
list. -/
def getUncommittedTransfers (transfers : List Transfer) (filterSourceChainId : Option Nat) :
    List Transfer :=
  transfers.filter (uncommittedPred filterSourceChainId)

/-- getUnbondedSentTransfers as a filter over the recent-window transfer
list. -/
def getUnbondedSentTransfers (baseRetryDelayMs now : Int) (transfers : List Transfer)
    (filterSourceChainId : Option Nat) : List Transfer :=
  transfers.filter (unbondedSentPred baseRetryDelayMs now filterSourceChainId)

/-- getBondedTransfersWithoutRoots as a filter over the recent-window
transfer list. -/
def getBondedTransfersWithoutRoots (transfers : List Transfer)
    (filterSourceChainId : Option Nat) : List Transfer :=
  transfers.filter (bondedWithoutRootsPred filterSourceChainId)

/-- The KeyFilter of BaseDb.getKeyValues: optional inclusive lower and
upper key bounds, compared as strings. -/
structure KeyFilter where
  gte : Option String := none
  lte : Option String := none

/-- Whether a key passes a KeyFilter (string comparison, as LevelDB
compares keys bytewise and all keys here are ASCII). -/
def keyInFilter (f : KeyFilter) (k : String) : Bool :=
  (match f.gte with
   | some g => strLe g k
   | none => true) &&
  (match f.lte with
   | some l => strLe k l
   | none => true)

/-- BaseDb.getKeyValues on the timestamped sub-db. Modelled from the spec:
BaseDb is not under src/; section 4.1 specifies the range scan as an
ascending sequence, matching LevelDB iteration over the sorted key list. -/
def getKeyValues (subDb : List (String × String)) (f : KeyFilter) :
    List (String × String) :=
  subDb.filter (fun kv => keyInFilter f kv.fst)

/-- TransfersDb.getTransferIds: with a truthy bound, scan the timestamped
sub-db between the string bounds transfer:fromUnix and transfer:toUnix~
and extract the stored transferId values (dropping falsy ones); with no
truthy bound, return the main-bucket keys that do not start with the
transfer: key namespace. -/
def getTransferIds (s : TransfersDbState) (fromUnix toUnix : Option Nat) : List String :=
  if truthyNat fromUnix || truthyNat toUnix then
    let f : KeyFilter :=
      { gte :=
          if truthyNat fromUnix then some ("transfer:" ++ toString (fromUnix.getD 0))
          else none
        lte :=
          if truthyNat toUnix then some ("transfer:" ++ toString (toUnix.getD 0) ++ "~")
          else none }
    ((getKeyValues s.subDb f).map (fun kv => kv.snd)).filter (fun v => v != "")
  else
    (s.entities.map (fun kv => kv.fst)).filter (fun k => !(k.startsWith "transfer:"))

/-- The TransferRoot entity (TransferRootsDb): the fields the SyncWatcher
and ExitWatcher claims touch, all optional. BigNumber amounts are Int,
timestamps Int. -/
structure TransferRoot where
  transferRootHash : Option String := none
  transferRootId : Option String := none
  totalAmount : Option Int := none
  transferIds : Option (List String) := none
  sourceChainId : Option Nat := none
  destinationChainId : Option Nat := none
  committed : Option Bool := none
  committedAt : Option Nat := none
  commitTxHash : Option String := none
  commitTxBlockNumber : Option Nat := none
  bonded : Option Bool := none
  confirmed : Option Bool := none
  confirmTxHash : Option String := none
  sentConfirmTx : Option Bool := none
  sentConfirmTxAt : Option Int := none
  challenged : Option Bool := none
  settled : Option Bool := none
  multipleWithdrawalsSettledTxHash : Option String := none
  multipleWithdrawalsSettledTotalAmount : Option Int := none
  deriving Repr, DecidableEq

/-- Merge a partial TransferRoot into a stored TransferRoot, field by
field. Modelled from the spec: the BaseDb._update merge (section 4.1
upsert). -/
def mergeRoot (old p : TransferRoot) : TransferRoot where
  transferRootHash := mergeField p.transferRootHash old.transferRootHash
  transferRootId := mergeField p.transferRootId old.transferRootId
  totalAmount := mergeField p.totalAmount old.totalAmount
  transferIds := mergeField p.transferIds old.transferIds
  sourceChainId := mergeField p.sourceChainId old.sourceChainId
  destinationChainId := mergeField p.destinationChainId old.destinationChainId
  committed := mergeField p.committed old.committed
  committedAt := mergeField p.committedAt old.committedAt
  commitTxHash := mergeField p.commitTxHash old.commitTxHash
  commitTxBlockNumber := mergeField p.commitTxBlockNumber old.commitTxBlockNumber
  bonded := mergeField p.bonded old.bonded
  confirmed := mergeField p.confirmed old.confirmed
  confirmTxHash := mergeField p.confirmTxHash old.confirmTxHash
  sentConfirmTx := mergeField p.sentConfirmTx old.sentConfirmTx
  sentConfirmTxAt := mergeField p.sentConfirmTxAt old.sentConfirmTxAt
  challenged := mergeField p.challenged old.challenged
  settled := mergeField p.settled old.settled
  multipleWithdrawalsSettledTxHash :=
    mergeField p.multipleWithdrawalsSettledTxHash old.multipleWithdrawalsSettledTxHash
  multipleWithdrawalsSettledTotalAmount :=
    mergeField p.multipleWithdrawalsSettledTotalAmount old.multipleWithdrawalsSettledTotalAmount

/-- The store state the SyncWatcher reads and writes: the transfers db and
the transfer-roots db, keyed by transferId and transferRootHash. The
timestamped-key and incomplete-item side indexes do not participate in the
settlement, backfill-consistency or finality logic and are kept in the
TransfersDbState model above. -/
structure SyncState where
  transfers : List (String × Transfer) := []
  transferRoots : List (String × TransferRoot) := []
  deriving Repr, DecidableEq

/-- db.transfers.update restricted to the entity bucket (the merge
semantics of the upsert). -/
def transfersUpdate (s : SyncState) (transferId : String) (p : Transfer) : SyncState :=
  let p := { p with transferId := some transferId }
  let merged := mergeTransfer ((alistLookup s.transfers transferId).getD {}) p
  { s with transfers := alistPut s.transfers transferId merged }

/-- db.transferRoots.update restricted to the entity bucket (the merge
semantics of the upsert). -/
def rootsUpdate (s : SyncState) (transferRootHash : String) (p : TransferRoot) : SyncState :=
  let p := { p with transferRootHash := some transferRootHash }
  let merged := mergeRoot ((alistLookup s.transferRoots transferRootHash).getD {}) p
  { s with transferRoots := alistPut s.transferRoots transferRootHash merged }

/-- One step of the member loop of checkTransferRootSettledState: read the
member transfer (the snapshot later used for the all-settled test), then
write its withdrawalBondSettled flag from its current withdrawalBonded
flag. -/
def settleMemberStep (acc : List (Option Transfer) × SyncState) (transferId : String) :
    List (Option Transfer) × SyncState :=
  let dbTransfer := alistLookup acc.2.transfers transferId
  let withdrawalBondSettled := (dbTransfer.bind (fun t => t.withdrawalBonded)).getD false
  (acc.1 ++ [dbTransfer],
   transfersUpdate acc.2 transferId { withdrawalBondSettled := some withdrawalBondSettled })

/-- SyncWatcher.checkTransferRootSettledState: for a root with known
non-empty membership, refresh each member transfer withdrawalBondSettled
from its bonded flag, then store settled := (on-chain settled total equals
the root totalAmount) or (every member snapshot is already settled or has
isBondable explicitly false). A missing root throws in the source (caught
by the caller); membership undefined or empty returns without writing. The
totalBondsSettled argument is a BigNumber, always truthy in the source
guard. -/
def checkTransferRootSettledState (s : SyncState) (transferRootHash : String)
    (totalBondsSettled : Int) : SyncState :=
  match alistLookup s.transferRoots transferRootHash with
  | none => s
  | some dbTransferRoot =>
    match dbTransferRoot.transferIds with
    | none => s
    | some transferIds =>
      if transferIds.length == 0 then s
      else
        let r := transferIds.foldl settleMemberStep ([], s)
        let dbTransfers := r.1
        let s1 := r.2
        let rootAmountAllSettled := dbTransferRoot.totalAmount == some totalBondsSettled
        let allBondableTransfersSettled := dbTransfers.all (fun dbTransfer =>
          let isAlreadySettled := (dbTransfer.bind (fun t => t.withdrawalBondSettled)).getD false
          let isExplicitySetUnbondable := dbTransfer.bind (fun t => t.isBondable) == some false
          isAlreadySettled || isExplicitySetUnbondable)
        let settled := rootAmountAllSettled || allBondableTransfersSettled
        rootsUpdate s1 transferRootHash { settled := some settled }

/-- SyncWatcher.handleMultipleWithdrawalsSettledEvent: store the settled
metadata (optimistically settled := true), then recompute the settlement
state when the root has a transferIds array (an empty array is truthy in
JS and also reaches the recompute, which then returns without writing). -/
def handleMultipleWithdrawalsSettledEvent (s : SyncState) (transferRootHash : String)
    (transactionHash : String) (totalBondsSettled : Int) : SyncState :=
  let s1 := rootsUpdate s transferRootHash
    { settled := some true
      multipleWithdrawalsSettledTxHash := some transactionHash
      multipleWithdrawalsSettledTotalAmount := some totalBondsSettled }
  match (alistLookup s1.transferRoots transferRootHash).bind (fun r => r.transferIds) with
  | none => s1
  | some _ => checkTransferRootSettledState s1 transferRootHash totalBondsSettled

/-- The settlement-chain slug (Chain.Ethereum). -/
def ethereumSlug : String := "ethereum"

/-- SyncWatcher.isOruToL1: destination is the settlement chain and the
source chain is in the optimistic-rollup set. chainIdToSlug and oruChains
come from configuration and are parameters. -/
def isOruToL1 (chainIdToSlug : Nat → String) (oruChains : List String)
    (sourceChainSlug : String) (destinationChainId : Nat) : Bool :=
  chainIdToSlug destinationChainId == ethereumSlug && oruChains.contains sourceChainSlug

/-- SyncWatcher.isNonOruToL1: destination is the settlement chain and the
source chain is not in the optimistic-rollup set. -/
def isNonOruToL1 (chainIdToSlug : Nat → String) (oruChains : List String)
    (sourceChainSlug : String) (destinationChainId : Nat) : Bool :=
  chainIdToSlug destinationChainId == ethereumSlug && !oruChains.contains sourceChainSlug

/-- SyncWatcher.calculateAvailableCredit: start from the destination base
credit, subtract the ORU-to-L1 pending amount and the unbonded-root
aggregate when the route terminates at the settlement chain (either the
ORU-origin or the non-ORU-origin case), and floor the result at zero. The
three amounts are the values the awaited calls return and are passed as
arguments. -/
def calculateAvailableCredit (chainIdToSlug : Nat → String) (oruChains : List String)
    (sourceChainSlug : String) (destinationChainId : Nat)
    (baseAvailableCredit oruToL1PendingAmount oruToAllUnbondedAmounts : Int) : Int :=
  let availableCredit := baseAvailableCredit
  let availableCredit :=
    if isOruToL1 chainIdToSlug oruChains sourceChainSlug destinationChainId ||
       isNonOruToL1 chainIdToSlug oruChains sourceChainSlug destinationChainId then
      availableCredit - oruToL1PendingAmount - oruToAllUnbondedAmounts
    else availableCredit
  if availableCredit < 0 then 0 else availableCredit

/-- The consistency-violation report logged when a recomputed Merkle root
does not match the stored root hash: both hashes and the full candidate id
list. -/
structure MerkleMismatch where
  expected : String
  got : String
  candidateIds : List String
  deriving Repr, DecidableEq

/-- SyncWatcher.populateTransferRootMultipleWithdrawSettled: when the root
has settle metadata but no membership yet, read the candidate ids from the
settle-event transaction (the chain lookup is abstracted as the
settleTxTransferIds argument and the Merkle-tree construction as the
merkleRoot parameter, src/utils/MerkleTree not being under src/), accept
the fill only when the recomputed root equals the stored hash, and on
mismatch log the error report and leave the store untouched. -/
def populateTransferRootMultipleWithdrawSettled (merkleRoot : List String → String)
    (s : SyncState) (transferRootHash : String) (settleTxTransferIds : List String) :
    SyncState × Option MerkleMismatch :=
  match alistLookup s.transferRoots transferRootHash with
  | none => (s, none)
  | some dbTransferRoot =>
    if !truthyStr dbTransferRoot.multipleWithdrawalsSettledTxHash ||
       dbTransferRoot.multipleWithdrawalsSettledTotalAmount == none ||
       dbTransferRoot.transferIds != none then (s, none)
    else if !truthyNat dbTransferRoot.destinationChainId then (s, none)
    else
      let computedTransferRootHash := merkleRoot settleTxTransferIds
      if computedTransferRootHash != transferRootHash then
        (s, some { expected := transferRootHash, got := computedTransferRootHash,
                   candidateIds := settleTxTransferIds })
      else
        let s1 := rootsUpdate s transferRootHash { transferIds := some settleTxTransferIds }
        (checkTransferRootSettledState s1 transferRootHash
          (dbTransferRoot.multipleWithdrawalsSettledTotalAmount.getD 0), none)

/-- The JS lastIndexOf on a list of numbers: the index of the last
occurrence, or -1 when absent. -/
def jsLastIndexOf (l : List Nat) (x : Nat) : Int :=
  match (l.reverse.indexOf? x) with
  | none => -1
  | some i => (l.length : Int) - 1 - i

/-- The JS slice(i) on a list for a possibly negative start index: a
negative index counts from the end. -/
def jsSliceFrom {α : Type} (l : List α) (i : Int) : List α :=
  if i < 0 then l.drop (l.length - (-i).toNat) else l.drop i.toNat

/-- The candidate-id extraction at the end of
populateTransferRootTransferIds: keep only the last run of transfers whose
per-root index restarts at 0 (slice from the last index-0 position), then
project the transfer ids. -/
def lastRootSequenceIds (transfers : List (String × Nat)) : List String :=
  let lastIndexZero := jsLastIndexOf (transfers.map (fun x => x.2)) 0
  (jsSliceFrom transfers lastIndexZero).map (fun x => x.1)

/-- SyncWatcher.populateTransferRootTransferIds: when the commit metadata
is complete and membership is still unknown, replay the source-chain
commit history (the event scan is abstracted: foundEndEvent says whether
the commit event for this root was found, and scannedTransfers is the
ordered (transferId, index) sequence collected between the two commit
points), re-derive the root hash over the candidate ids and accept the
fill only on an exact match; on mismatch log the error report and apply no
store update. isL1ChainId and the on-chain root-id derivation are
configuration and chain lookups, abstracted as parameters. -/
def populateTransferRootTransferIds (merkleRoot : List String → String)
    (isL1ChainId : Nat → Bool) (getTransferRootId : String → Int → String)
    (s : SyncState) (transferRootHash : String) (foundEndEvent : Bool)
    (scannedTransfers : List (String × Nat)) : SyncState × Option MerkleMismatch :=
  match alistLookup s.transferRoots transferRootHash with
  | none => (s, none)
  | some dbTransferRoot =>
    if (dbTransferRoot.transferIds != none &&
          ((dbTransferRoot.transferIds.getD []).length != 0)) ||
       !(truthyNat dbTransferRoot.sourceChainId &&
         truthyNat dbTransferRoot.destinationChainId &&
         truthyNat dbTransferRoot.commitTxBlockNumber &&
         dbTransferRoot.totalAmount != none) ||
       isL1ChainId (dbTransferRoot.sourceChainId.getD 0) then (s, none)
    else if !foundEndEvent then (s, none)
    else
      let transferIds := lastRootSequenceIds scannedTransfers
      let computedTransferRootHash := merkleRoot transferIds
      if computedTransferRootHash != transferRootHash then
        (s, some { expected := transferRootHash, got := computedTransferRootHash,
                   candidateIds := transferIds })
      else
        let transferRootId :=
          getTransferRootId transferRootHash (dbTransferRoot.totalAmount.getD 0)
        let s1 := rootsUpdate s transferRootHash
          { transferIds := some transferIds
            totalAmount := dbTransferRoot.totalAmount
            sourceChainId := dbTransferRoot.sourceChainId }
        let s2 := transferIds.foldl (fun st tid =>
          transfersUpdate st tid
            { transferRootHash := some transferRootHash
              transferRootId := some transferRootId }) s1
        (s2, none)

/-- SyncWatcher.getOruToL1PendingAmount: sum the live pending amount of
every optimistic-rollup chain that has a sibling watcher (a chain without
one is skipped). The per-chain pending amount is the value
calculatePendingAmount returns, a live chain query, passed as the
siblingPendingAmount parameter (none when no sibling watcher exists). -/
def getOruToL1PendingAmount (oruChains : List String)
    (siblingPendingAmount : String → Option Int) : Int :=
  oruChains.foldl (fun pendingAmounts chain =>
    match siblingPendingAmount chain with
    | none => pendingAmounts
    | some pendingAmount => pendingAmounts + pendingAmount) 0

/-- The staleness test of getOruToAllUnbondedTransferRootAmounts: a truthy
lastCalculated timestamp more than ten minutes before now. -/
def isStaleAt (lastCalculated : String → Option Int) (now : Int) (chain : String) : Bool :=
  match lastCalculated chain with
  | some t => t != 0 && decide (now - t > TenMinutesMs)
  | none => false

/-- SyncWatcher.getOruToAllUnbondedTransferRootAmounts: sum the cached
per-destination unbonded-root amounts of this watcher, skipping an entry
whose lastCalculated timestamp is truthy and more than ten minutes before
now. -/
def getOruToAllUnbondedTransferRootAmounts
    (unbondedTransferRootAmounts : List (String × Int))
    (lastCalculated : String → Option Int) (now : Int) : Int :=
  unbondedTransferRootAmounts.foldl (fun totalAmount kv =>
    if isStaleAt lastCalculated now kv.1 then totalAmount else totalAmount + kv.2) 0

/-- Modelled from the spec: the ORU-to-settlement pending aggregate as the
spec words it — a sum across all optimistic-rollup-origin chains that
excludes any contribution whose own recompute timestamp is more than 10
minutes stale. Stated for comparison with the source function
getOruToL1PendingAmount, which has no staleness exclusion. -/
def oruToL1PendingAmountPerSpec (oruChains : List String)
    (siblingPendingAmount : String → Option Int)
    (lastCalculated : String → Option Int) (now : Int) : Int :=
  oruChains.foldl (fun pendingAmounts chain =>
    if isStaleAt lastCalculated now chain then pendingAmounts
    else
      match siblingPendingAmount chain with
      | none => pendingAmounts
      | some pendingAmount => pendingAmounts + pendingAmount) 0

/-- The environment of one L2ExitWatcher.checkTransfersCommitted pass: the
chain id of the bridge this watcher wraps, the slug of its network, the
commit transaction hash the chain lookup returns, whether a decodable
signature event was found near the commit transaction, whether
executeExitTx returned a transaction result, and the current time. -/
structure ExitCheckEnv where
  bridgeChainId : Nat
  networkSlug : String
  fetchedCommitTxHash : Option String
  hasSigEventData : Bool
  exitTxResult : Bool
  now : Int
  deriving Repr, DecidableEq

/-- The xDai slug (Chain.xDai), the one message-bridging mechanism the
finality pathway implements. -/
def xDaiSlug : String := "xdai"

/-- L2ExitWatcher.checkTransfersCommitted: returns the updated store and
whether the finalize (exit) transaction was submitted this pass. The skip
guard reads the root fetched at entry: already confirmed, wrong source
chain, no commit transaction hash, a non-xDai network, or a recorded
sentConfirmTx with a truthy timestamp all skip; after executeExitTx
returns a result the store records sentConfirmTx := true with the current
time. The receipt callbacks run later and are modelled by
exitTxReceiptUpdate below. -/
def checkTransfersCommitted (env : ExitCheckEnv) (s : SyncState)
    (transferRootHash : String) : SyncState × Bool :=
  match alistLookup s.transferRoots transferRootHash with
  | none => (s, false)
  | some dbTransferRoot =>
    if truthyBool dbTransferRoot.confirmed then (s, false)
    else
      match dbTransferRoot.sourceChainId with
      | none => (s, false)
      | some sourceChainId =>
        if sourceChainId == 0 then (s, false)
        else if env.bridgeChainId != sourceChainId then (s, false)
        else if !truthyStr env.fetchedCommitTxHash then (s, false)
        else
          let s1 := rootsUpdate s transferRootHash
            { commitTxHash := env.fetchedCommitTxHash }
          if env.networkSlug != xDaiSlug then (s1, false)
          else if !env.hasSigEventData then (s1, false)
          else if (truthyBool dbTransferRoot.sentConfirmTx ||
                   truthyBool dbTransferRoot.confirmed) &&
                  truthyInt dbTransferRoot.sentConfirmTxAt then (s1, false)
          else if !env.exitTxResult then (s1, false)
          else
            (rootsUpdate s1 transferRootHash
              { sentConfirmTx := some true, sentConfirmTxAt := some env.now }, true)

/-- The receipt callback of the submitted exit transaction: a receipt with
status other than 1 (or a rejected wait) reverts sentConfirmTx and its
timestamp so a later pass retries; a status-1 receipt marks the root
confirmed. -/
def exitTxReceiptUpdate (s : SyncState) (transferRootHash : String)
    (receiptStatus : Option Nat) : SyncState :=
  if receiptStatus == some 1 then
    rootsUpdate s transferRootHash { confirmed := some true }
  else
    rootsUpdate s transferRootHash
      { sentConfirmTx := some false, sentConfirmTxAt := some 0 }

/-- The completeness predicate exactly as the spec words it (negated): a
record is complete iff it has sourceChainId, destinationChainId and
transferSentBlockNumber, and (if transferSentBlockNumber is set)
transferSentTimestamp, and (if withdrawalBondedTxHash is present) a
resolved withdrawalBonder. Stated for comparison with the source
isItemIncomplete, which additionally exempts invalid ids. -/
def isIncompletePerSpec (item : Transfer) : Bool :=
  !truthyNat item.sourceChainId ||
  !truthyNat item.destinationChainId ||
  !truthyNat item.transferSentBlockNumber ||
  (truthyNat item.transferSentBlockNumber && !truthyNat item.transferSentTimestamp) ||
  (truthyStr item.withdrawalBondedTxHash && !truthyStr item.withdrawalBonder)

/-- The timestamped key transfer:ts:id as a function of its parts. -/
def timestampedKeyOf (ts : Nat) (id : String) : String :=
  "transfer:" ++ toString ts ++ ":" ++ id

/-- The non-timing conditions of the getUnbondedSentTransfers filter
(everything except the retry-delay test), used to state the backoff
claims. -/
def unbondedSentEligBase (filterSourceChainId : Option Nat) (item : Transfer) : Bool :=
  truthyStr item.transferId &&
  !invalidTransferIds.contains (item.transferId.getD "") &&
  !sourceChainMismatch filterSourceChainId item.sourceChainId &&
  truthyNat item.transferSentTimestamp &&
  !truthyBool item.withdrawalBonded &&
  truthyStr item.transferSentTxHash &&
  truthyBool item.isBondable &&
  !truthyBool item.isTransferSpent

/-- A concrete two-member store used to witness the settlement theorem:
one member already settled, one member explicitly unbondable. -/
def c1State : SyncState :=
  { transfers := [("0xa", { withdrawalBondSettled := some true }),
                  ("0xb", { isBondable := some false })]
    transferRoots := [("0xr", { transferIds := some ["0xa", "0xb"],
                                totalAmount := some 99 })] }

/-- The root record stored in c1State. -/
def c1Root : TransferRoot :=
  { transferIds := some ["0xa", "0xb"], totalAmount := some 99 }

/-- A concrete sent-and-bondable transfer whose last bonding attempt
failed with the bonder-fee-too-low error, with backoff index k. -/
def c4Item (k : Nat) : Transfer :=
  { transferId := some "0x1111"
    sourceChainId := some 10
    transferSentTimestamp := some 1650000000
    transferSentTxHash := some "0xtx"
    isBondable := some true
    withdrawalBondTxError := some TxError.BonderFeeTooLow
    withdrawalBondBackoffIndex := some k
    bondWithdrawalAttemptedAt := some 1650000000000 }

/-- The first entry of the invalid-id table. -/
def c5InvalidId : String :=
  "0x8395ab39248878d5defddff3df327b77799edd01f028ba62e16bedd1f372015b"

/-- A concrete transfer carrying a known-bad id that is sent, uncommitted
and bonded-without-root. -/
def c5Item : Transfer :=
  { transferId := some c5InvalidId
    transferSentTxHash := some "0xtx"
    withdrawalBonded := some true }

/-- A concrete store holding two timestamped transfers whose sent
timestamps have different digit counts (9 and 10). -/
def c8State : TransfersDbState :=
  dbUpdate (dbUpdate {} "b" { transferSentTimestamp := some 10 }) "a"
    { transferSentTimestamp := some 9 }

/-! Shared lemmas about the store primitives. -/

theorem alistLookup_put_self {α : Type} (l : List (String × α)) (k : String) (v : α) :
    alistLookup (alistPut l k v) k = some v := by
  induction l with
  | nil => simp [alistPut, alistLookup]
  | cons hd tl ih =>
    obtain ⟨k0, v0⟩ := hd
    by_cases h : k0 == k
    · simp [alistPut, h, alistLookup]
    · simp [alistPut, h, alistLookup, ih]

theorem alistLookup_put_other {α : Type} (l : List (String × α)) (k k2 : String) (v : α)
    (h : k ≠ k2) : alistLookup (alistPut l k v) k2 = alistLookup l k2 := by
  induction l with
  | nil => simp [alistPut, alistLookup, h]
  | cons hd tl ih =>
    obtain ⟨k0, v0⟩ := hd
    by_cases h0 : k0 == k
    · have hk0 : k0 = k := by simpa using h0
      subst hk0
      simp [alistPut, alistLookup, h]
    · simp [alistPut, h0, alistLookup, ih]

theorem transfersUpdate_transferRoots (s : SyncState) (id : String) (p : Transfer) :
    (transfersUpdate s id p).transferRoots = s.transferRoots := rfl

theorem transfersUpdate_lookup_other (s : SyncState) (id id2 : String) (p : Transfer)
    (h : id ≠ id2) :
    alistLookup (transfersUpdate s id p).transfers id2 = alistLookup s.transfers id2 := by
  simp [transfersUpdate, alistLookup_put_other _ _ _ _ h]

theorem rootsUpdate_transfers (s : SyncState) (h : String) (p : TransferRoot) :
    (rootsUpdate s h p).transfers = s.transfers := rfl

/-! ## Claim C2 -/

/-- Claim C2: calculateAvailableCredit returns the destination base credit
minus the pending amount and the unbonded-root aggregate exactly when the
destination chain is the settlement chain (the ORU-origin and the
non-ORU-origin cases together cover precisely that condition), floored at
zero, and the result is never negative. -/
theorem calculateAvailableCredit_spec (chainIdToSlug : Nat → String)
    (oruChains : List String) (sourceChainSlug : String) (destinationChainId : Nat)
    (base pending unbonded : Int) :
    0 ≤ calculateAvailableCredit chainIdToSlug oruChains sourceChainSlug
        destinationChainId base pending unbonded ∧
    (chainIdToSlug destinationChainId = ethereumSlug →
      calculateAvailableCredit chainIdToSlug oruChains sourceChainSlug
        destinationChainId base pending unbonded = max 0 (base - pending - unbonded)) ∧
    (chainIdToSlug destinationChainId ≠ ethereumSlug →
      calculateAvailableCredit chainIdToSlug oruChains sourceChainSlug
        destinationChainId base pending unbonded = max 0 base) := by
  unfold calculateAvailableCredit isOruToL1 isNonOruToL1
  by_cases h : chainIdToSlug destinationChainId = ethereumSlug <;>
    by_cases h2 : oruChains.contains sourceChainSlug = true <;>
      simp [h, h2] <;> constructor <;> omega

/-- Witness for C2 at a concrete route: an ORU source to the settlement
chain with base 100, pending 30, unbonded 50 yields 20. -/
theorem calculateAvailableCredit_spec_witness :
    (fun _ : Nat => "ethereum") 1 = ethereumSlug ∧
    calculateAvailableCredit (fun _ => "ethereum") ["optimism"] "optimism" 1 100 30 50
      = max 0 (100 - 30 - 50) :=
  ⟨rfl, (calculateAvailableCredit_spec (fun _ => "ethereum") ["optimism"] "optimism" 1
    100 30 50).2.1 rfl⟩

/-! ## Claim C10 -/

/-- Claim C10: the exit watcher submits the finalize transaction only when
the root is not yet confirmed and sentConfirmTx was not recorded within
the last 10 minutes (the source guard is even stronger: any recorded
sentConfirmTx with a truthy timestamp skips); on submission the store
records sentConfirmTx := true with the current time; a failed receipt
reverts sentConfirmTx to false with timestamp 0; a successful receipt
marks the root confirmed. -/
theorem checkTransfersCommitted_spec (env : ExitCheckEnv) (s : SyncState)
    (transferRootHash : String) (root : TransferRoot)
    (hroot : alistLookup s.transferRoots transferRootHash = some root) :
    ((checkTransfersCommitted env s transferRootHash).2 = true →
      root.confirmed ≠ some true ∧
      ¬(root.sentConfirmTx = some true ∧ root.sentConfirmTxAt.getD 0 ≠ 0 ∧
        env.now - TenMinutesMs < root.sentConfirmTxAt.getD 0) ∧
      (alistLookup (checkTransfersCommitted env s transferRootHash).1.transferRoots
        transferRootHash).bind (fun r => r.sentConfirmTx) = some true ∧
      (alistLookup (checkTransfersCommitted env s transferRootHash).1.transferRoots
        transferRootHash).bind (fun r => r.sentConfirmTxAt) = some env.now) ∧
    (∀ st : SyncState, ∀ status : Option Nat, status ≠ some 1 →
      (alistLookup (exitTxReceiptUpdate st transferRootHash status).transferRoots
        transferRootHash).bind (fun r => r.sentConfirmTx) = some false ∧
      (alistLookup (exitTxReceiptUpdate st transferRootHash status).transferRoots
        transferRootHash).bind (fun r => r.sentConfirmTxAt) = some (0 : Int)) ∧
    (∀ st : SyncState,
      (alistLookup (exitTxReceiptUpdate st transferRootHash (some 1)).transferRoots
        transferRootHash).bind (fun r => r.confirmed) = some true) := by
  refine ⟨?_, ?_, ?_⟩
  · unfold checkTransfersCommitted
    rw [hroot]
    dsimp only
    split
    next hconf =>
      simp
    next hconf =>
      split
      next heqsrc => simp
      next srcId heqsrc =>
        split
        next => simp
        next hzero =>
          split
          next => simp
          next hbridge =>
            split
            next => simp
            next hcommit =>
              split
              next => simp
              next hslug =>
                split
                next => simp
                next hsig =>
                  split
                  next => simp
                  next hguard =>
                    split
                    next => simp
                    next hexit =>
                      intro _
                      refine ⟨?_, ?_, ?_, ?_⟩
                      · intro hc
                        simp [truthyBool, hc] at hconf
                      · rintro ⟨hA, hB, _⟩
                        apply hguard
                        have h1 : truthyBool root.sentConfirmTx = true := by
                          simp [truthyBool, hA]
                        have h2 : truthyInt root.sentConfirmTxAt = true := by
                          cases hAt : root.sentConfirmTxAt with
                          | none => simp [hAt] at hB
                          | some v =>
                            simp [hAt] at hB
                            simp [truthyInt, hAt, hB]
                        simp [h1, h2]
                      · simp [rootsUpdate, alistLookup_put_self, mergeRoot, mergeField]
                      · simp [rootsUpdate, alistLookup_put_self, mergeRoot, mergeField]
  · intro st status hstatus
    have hne : (status == some 1) = false := by
      simpa using hstatus
    constructor <;>
      simp [exitTxReceiptUpdate, hne, rootsUpdate, alistLookup_put_self, mergeRoot,
        mergeField]
  · intro st
    simp [exitTxReceiptUpdate, rootsUpdate, alistLookup_put_self, mergeRoot, mergeField]

/-- Witness for C10 at a concrete pass: a root with commit metadata on the
xDai path is submitted, and the receipt outcomes update the flags as
claimed. -/
theorem checkTransfersCommitted_spec_witness :
    alistLookup (SyncState.mk []
        [("0xroot", { sourceChainId := some 100 : TransferRoot })]).transferRoots "0xroot"
      = some { sourceChainId := some 100 } ∧
    ((checkTransfersCommitted
        { bridgeChainId := 100, networkSlug := "xdai",
          fetchedCommitTxHash := some "0xc", hasSigEventData := true,
          exitTxResult := true, now := 5000 }
        (SyncState.mk [] [("0xroot", { sourceChainId := some 100 })]) "0xroot").2 = true →
      ({ sourceChainId := some 100 : TransferRoot }).confirmed ≠ some true) ∧
    (some 0 : Option Nat) ≠ some 1 := by
  refine ⟨rfl, ?_, by decide⟩
  intro h
  exact ((checkTransfersCommitted_spec
    { bridgeChainId := 100, networkSlug := "xdai", fetchedCommitTxHash := some "0xc",
      hasSigEventData := true, exitTxResult := true, now := 5000 }
    (SyncState.mk [] [("0xroot", { sourceChainId := some 100 })]) "0xroot"
    { sourceChainId := some 100 } rfl).1 h).1

/-! ## Claim C9 -/

theorem foldl_optionAdd_eq (p : String → Option Int) :
    ∀ (l : List String) (init : Int),
      l.foldl (fun acc chain =>
        match p chain with
        | none => acc
        | some v => acc + v) init = init + (l.filterMap p).sum := by
  intro l
  induction l with
  | nil => simp
  | cons hd tl ih =>
    intro init
    cases h : p hd with
    | none => simp [h, ih]
    | some v =>
      simp [h, ih]
      ring

theorem foldl_skipStale_eq (g : String → Bool) (f : String × Int → Int) :
    ∀ (l : List (String × Int)) (init : Int),
      l.foldl (fun acc kv => if g kv.1 then acc else acc + f kv) init
        = init + ((l.filter (fun kv => !g kv.1)).map f).sum := by
  intro l
  induction l with
  | nil => simp
  | cons hd tl ih =>
    intro init
    by_cases h : g hd.1
    · simp [h, ih]
    · simp [h, ih]
      ring

/-- Claim C9 counterexample: the pending-amount aggregate includes the
contribution of an optimistic-rollup chain whose recompute timestamp is
more than 10 minutes stale (its value does not even depend on the
recompute timestamps), while the aggregate as the claim words it would
exclude that contribution. -/
theorem oruPendingAmount_staleness_cex :
    getOruToL1PendingAmount ["optimism"] (fun _ => some 5) = 5 ∧
    oruToL1PendingAmountPerSpec ["optimism"] (fun _ => some 5)
      (fun _ => some 1000) (1000 + TenMinutesMs + 60000) = 0 ∧
    (5 : Int) ≠ 0 := by
  refine ⟨rfl, ?_, by decide⟩
  simp [oruToL1PendingAmountPerSpec, isStaleAt, TenMinutesMs]

/-- Claim C9 as amended: the unbonded-root aggregate sums the cached
per-destination amounts and excludes an entry once its own recompute
timestamp is more than 10 minutes stale, while the pending-amount
aggregate sums the live pending amount of every optimistic-rollup chain
that has a sibling watcher, with no staleness exclusion (the sum is
independent of the recompute timestamps). -/
theorem oruAggregates_spec (oruChains : List String)
    (siblingPendingAmount : String → Option Int)
    (unbondedTransferRootAmounts : List (String × Int))
    (lastCalculated : String → Option Int) (now : Int) :
    getOruToL1PendingAmount oruChains siblingPendingAmount
      = (oruChains.filterMap siblingPendingAmount).sum ∧
    getOruToAllUnbondedTransferRootAmounts unbondedTransferRootAmounts
        lastCalculated now
      = ((unbondedTransferRootAmounts.filter
            (fun kv => !isStaleAt lastCalculated now kv.1)).map (fun kv => kv.2)).sum := by
  constructor
  · simpa using foldl_optionAdd_eq siblingPendingAmount oruChains 0
  · simpa using
      foldl_skipStale_eq (isStaleAt lastCalculated now) (fun kv => kv.2)
        unbondedTransferRootAmounts 0

/-! ## Claim C3 -/

/-- Claim C3: on both membership-backfill paths (the settle-event
transaction path and the commit-history replay path) the store is written
only when the Merkle root recomputed over the candidate id sequence equals
the stored root hash; on mismatch the state is left untouched, and any
emitted error report carries both hashes and the full candidate id list;
when the fill is actually attempted (all guards pass) and the hashes
mismatch, the error report is in fact emitted. -/
theorem merkleBackfill_reject_spec (merkleRoot : List String → String)
    (isL1Chain : Nat → Bool) (getRootId : String → Int → String)
    (s : SyncState) (transferRootHash : String) (settleTxTransferIds : List String)
    (foundEndEvent : Bool) (scannedTransfers : List (String × Nat)) :
    (merkleRoot settleTxTransferIds ≠ transferRootHash →
      (populateTransferRootMultipleWithdrawSettled merkleRoot s transferRootHash
        settleTxTransferIds).1 = s) ∧
    (∀ e, (populateTransferRootMultipleWithdrawSettled merkleRoot s transferRootHash
        settleTxTransferIds).2 = some e →
      e = { expected := transferRootHash, got := merkleRoot settleTxTransferIds,
            candidateIds := settleTxTransferIds } ∧
      merkleRoot settleTxTransferIds ≠ transferRootHash ∧
      (populateTransferRootMultipleWithdrawSettled merkleRoot s transferRootHash
        settleTxTransferIds).1 = s) ∧
    (∀ root, alistLookup s.transferRoots transferRootHash = some root →
      truthyStr root.multipleWithdrawalsSettledTxHash = true →
      root.multipleWithdrawalsSettledTotalAmount ≠ none →
      root.transferIds = none →
      truthyNat root.destinationChainId = true →
      merkleRoot settleTxTransferIds ≠ transferRootHash →
      (populateTransferRootMultipleWithdrawSettled merkleRoot s transferRootHash
        settleTxTransferIds).2
        = some { expected := transferRootHash, got := merkleRoot settleTxTransferIds,
                 candidateIds := settleTxTransferIds }) ∧
    (merkleRoot (lastRootSequenceIds scannedTransfers) ≠ transferRootHash →
      (populateTransferRootTransferIds merkleRoot isL1Chain getRootId s
        transferRootHash foundEndEvent scannedTransfers).1 = s) ∧
    (∀ e, (populateTransferRootTransferIds merkleRoot isL1Chain getRootId s
        transferRootHash foundEndEvent scannedTransfers).2 = some e →
      e = { expected := transferRootHash,
            got := merkleRoot (lastRootSequenceIds scannedTransfers),
            candidateIds := lastRootSequenceIds scannedTransfers } ∧
      merkleRoot (lastRootSequenceIds scannedTransfers) ≠ transferRootHash ∧
      (populateTransferRootTransferIds merkleRoot isL1Chain getRootId s
        transferRootHash foundEndEvent scannedTransfers).1 = s) ∧
    (∀ root, alistLookup s.transferRoots transferRootHash = some root →
      ((root.transferIds != none && ((root.transferIds.getD []).length != 0)) ||
        !(truthyNat root.sourceChainId && truthyNat root.destinationChainId &&
          truthyNat root.commitTxBlockNumber && root.totalAmount != none) ||
        isL1Chain (root.sourceChainId.getD 0)) = false →
      foundEndEvent = true →
      merkleRoot (lastRootSequenceIds scannedTransfers) ≠ transferRootHash →
      (populateTransferRootTransferIds merkleRoot isL1Chain getRootId s
        transferRootHash foundEndEvent scannedTransfers).2
        = some { expected := transferRootHash,
                 got := merkleRoot (lastRootSequenceIds scannedTransfers),
                 candidateIds := lastRootSequenceIds scannedTransfers }) := by
  refine ⟨?_, ?_, ?_, ?_, ?_, ?_⟩
  · intro hmis
    unfold populateTransferRootMultipleWithdrawSettled
    dsimp only
    split
    · rfl
    · split
      · rfl
      · split
        · rfl
        · split
          · rfl
          · simp_all
  · intro e
    unfold populateTransferRootMultipleWithdrawSettled
    dsimp only
    split
    · simp
    · split
      · simp
      · split
        · simp
        · split
          next hne =>
            intro he
            refine ⟨by simpa using he.symm, by simpa using hne, rfl⟩
          · simp
  · intro root hroot htx hamt hids hdest hmis
    unfold populateTransferRootMultipleWithdrawSettled
    rw [hroot]
    dsimp only
    rw [if_neg (by simp [htx, hamt, hids]), if_neg (by simp [hdest]),
      if_pos (by simpa using hmis)]
  · intro hmis
    unfold populateTransferRootTransferIds
    dsimp only
    split
    · rfl
    · split
      · rfl
      · split
        · rfl
        · split
          · rfl
          · simp_all
  · intro e
    unfold populateTransferRootTransferIds
    dsimp only
    split
    · simp
    · split
      · simp
      · split
        · simp
        · split
          next hne =>
            intro he
            refine ⟨by simpa using he.symm, by simpa using hne, rfl⟩
          · simp
  · intro root hroot hguards hfound hmis
    unfold populateTransferRootTransferIds
    rw [hroot]
    dsimp only
    rw [if_neg (by rw [hguards]; simp), if_neg (by simp [hfound]),
      if_pos (by simpa using hmis)]

/-- Witness for C3 at a concrete mismatching fill: with a Merkle function
returning a fixed different hash, the settle-path fill leaves the store
unchanged. -/
theorem merkleBackfill_reject_spec_witness :
    ("0xother" : String) ≠ "0xroot" ∧
    (populateTransferRootMultipleWithdrawSettled (fun _ => "0xother")
      (SyncState.mk [] [("0xroot",
        { multipleWithdrawalsSettledTxHash := some "0xt",
          multipleWithdrawalsSettledTotalAmount := some 7,
          destinationChainId := some 1 })]) "0xroot" ["0xa", "0xb"]).1
      = SyncState.mk [] [("0xroot",
        { multipleWithdrawalsSettledTxHash := some "0xt",
          multipleWithdrawalsSettledTotalAmount := some 7,
          destinationChainId := some 1 })] :=
  ⟨by decide,
   (merkleBackfill_reject_spec (fun _ => "0xother") (fun _ => false) (fun _ _ => "")
     (SyncState.mk [] [("0xroot",
       { multipleWithdrawalsSettledTxHash := some "0xt",
         multipleWithdrawalsSettledTotalAmount := some 7,
         destinationChainId := some 1 })]) "0xroot" ["0xa", "0xb"] true []).1
     (by decide)⟩

/-! ## Claim C1 -/

theorem listAllMap {A B : Type} (f : A → B) (p : B → Bool) (l : List A) :
    (l.map f).all p = l.all (fun x => p (f x)) := by
  induction l with
  | nil => rfl
  | cons hd tl ih => simp [ih]

theorem settleFold_spec (sBase : SyncState) :
    ∀ (ids : List String) (acc : List (Option Transfer)) (t : SyncState),
      ids.Nodup →
      t.transferRoots = sBase.transferRoots →
      (∀ id ∈ ids, alistLookup t.transfers id = alistLookup sBase.transfers id) →
      (ids.foldl settleMemberStep (acc, t)).1
          = acc ++ ids.map (fun id => alistLookup sBase.transfers id) ∧
      (ids.foldl settleMemberStep (acc, t)).2.transferRoots = sBase.transferRoots := by
  intro ids
  induction ids with
  | nil =>
    intro acc t _ hroots _
    refine ⟨by simp, hroots⟩
  | cons hd tl ih =>
    intro acc t hnd hroots hlook
    have hhd : alistLookup t.transfers hd = alistLookup sBase.transfers hd :=
      hlook hd (by simp)
    have hstep : settleMemberStep (acc, t) hd
        = (acc ++ [alistLookup sBase.transfers hd],
           transfersUpdate t hd
             { withdrawalBondSettled :=
                 some (((alistLookup sBase.transfers hd).bind
                   (fun x => x.withdrawalBonded)).getD false) }) := by
      simp [settleMemberStep, hhd]
    have hmem : hd ∉ tl := (List.nodup_cons.mp hnd).1
    have ihres := ih (acc ++ [alistLookup sBase.transfers hd])
      (transfersUpdate t hd
        { withdrawalBondSettled :=
            some (((alistLookup sBase.transfers hd).bind
              (fun x => x.withdrawalBonded)).getD false) })
      (List.nodup_cons.mp hnd).2
      (by rw [transfersUpdate_transferRoots]; exact hroots)
      (by
        intro id hid
        have hne : hd ≠ id := fun h => hmem (h ▸ hid)
        rw [transfersUpdate_lookup_other _ _ _ _ hne]
        exact hlook id (by simp [hid]))
    rw [List.foldl_cons, hstep]
    refine ⟨?_, ihres.2⟩
    rw [ihres.1]
    simp

/-- Claim C1: after handleMultipleWithdrawalsSettledEvent for a root with
known non-empty membership (with pairwise-distinct member ids), the stored
settled flag is true iff the on-chain settled total equals the root
totalAmount, or every member transfer was already settled
(withdrawalBondSettled) or has isBondable explicitly set to false; a
member with undefined bondability, and a member with no stored record at
all, does not count as settled. -/
theorem checkSettledState_spec (s : SyncState) (transferRootHash : String)
    (totalBondsSettled : Int) (root : TransferRoot) (ids : List String)
    (hroot : alistLookup s.transferRoots transferRootHash = some root)
    (hids : root.transferIds = some ids) (hne : ids ≠ []) (hnd : ids.Nodup) :
    (alistLookup (checkTransferRootSettledState s transferRootHash
        totalBondsSettled).transferRoots transferRootHash).bind
      (fun r => r.settled)
      = some ((root.totalAmount == some totalBondsSettled) ||
          ids.all (fun id =>
            ((alistLookup s.transfers id).bind
              (fun t => t.withdrawalBondSettled)).getD false ||
            (((alistLookup s.transfers id).bind (fun t => t.isBondable))
              == some false))) := by
  unfold checkTransferRootSettledState
  rw [hroot]
  dsimp only
  rw [hids]
  dsimp only
  rw [if_neg (by
    simp only [beq_iff_eq]
    exact fun h => hne (List.length_eq_zero.mp (by simpa using h)))]
  have hfold := settleFold_spec s ids [] s hnd rfl (fun _ _ => rfl)
  rw [hfold.1]
  simp only [rootsUpdate, alistLookup_put_self, hfold.2]
  simp [mergeRoot, mergeField]
  congr 1
  rw [listAllMap]

/-- Claim C1: after handleMultipleWithdrawalsSettledEvent for a root with
known non-empty membership (with pairwise-distinct member ids), the stored
settled flag is true iff the on-chain settled total equals the root
totalAmount, or every member transfer was already settled
(withdrawalBondSettled) or has isBondable explicitly set to false; a
member with undefined bondability, and a member with no stored record at
all, does not count as settled. -/
theorem settledState_iff (s : SyncState) (transferRootHash transactionHash : String)
    (totalBondsSettled : Int) (root : TransferRoot) (ids : List String)
    (hroot : alistLookup s.transferRoots transferRootHash = some root)
    (hids : root.transferIds = some ids) (hne : ids ≠ []) (hnd : ids.Nodup) :
    (alistLookup (handleMultipleWithdrawalsSettledEvent s transferRootHash
        transactionHash totalBondsSettled).transferRoots transferRootHash).bind
      (fun r => r.settled)
      = some ((root.totalAmount == some totalBondsSettled) ||
          ids.all (fun id =>
            ((alistLookup s.transfers id).bind
              (fun t => t.withdrawalBondSettled)).getD false ||
            (((alistLookup s.transfers id).bind (fun t => t.isBondable))
              == some false))) := by
  have hpatch : alistLookup (rootsUpdate s transferRootHash
      { settled := some true, multipleWithdrawalsSettledTxHash := some transactionHash,
        multipleWithdrawalsSettledTotalAmount := some totalBondsSettled }).transferRoots
      transferRootHash
      = some (mergeRoot root
          { transferRootHash := some transferRootHash, settled := some true,
            multipleWithdrawalsSettledTxHash := some transactionHash,
            multipleWithdrawalsSettledTotalAmount := some totalBondsSettled }) := by
    simp [rootsUpdate, hroot, alistLookup_put_self]
  have hti : (mergeRoot root
      { transferRootHash := some transferRootHash, settled := some true,
        multipleWithdrawalsSettledTxHash := some transactionHash,
        multipleWithdrawalsSettledTotalAmount := some totalBondsSettled }).transferIds
      = some ids := by
    simp [mergeRoot, mergeField, hids]
  unfold handleMultipleWithdrawalsSettledEvent
  dsimp only
  split
  next hnone =>
    rw [hpatch] at hnone
    simp [hti] at hnone
  next l hsome =>
    have hmain := checkSettledState_spec (rootsUpdate s transferRootHash
        { settled := some true, multipleWithdrawalsSettledTxHash := some transactionHash,
          multipleWithdrawalsSettledTotalAmount := some totalBondsSettled })
      transferRootHash totalBondsSettled _ ids hpatch hti hne hnd
    rw [hmain]
    have htransfers : (rootsUpdate s transferRootHash
        { settled := some true, multipleWithdrawalsSettledTxHash := some transactionHash,
          multipleWithdrawalsSettledTotalAmount := some totalBondsSettled }).transfers
        = s.transfers := rfl
    rw [htransfers]
    simp [mergeRoot, mergeField]

/-- Witness for C1 at a concrete store: the settled total 7 differs from
the root total 99, but one member is already settled and the other is
explicitly unbondable, so the recomputed settled flag is the disjunction
evaluated at the pre-event member snapshots. -/
theorem settledState_iff_witness :
    alistLookup c1State.transferRoots "0xr" = some c1Root ∧
    (["0xa", "0xb"] : List String) ≠ [] ∧
    (alistLookup (handleMultipleWithdrawalsSettledEvent c1State "0xr" "0xtx" 7).transferRoots
        "0xr").bind (fun r => r.settled)
      = some ((c1Root.totalAmount == some 7) ||
          (["0xa", "0xb"] : List String).all (fun id =>
            ((alistLookup c1State.transfers id).bind
              (fun t => t.withdrawalBondSettled)).getD false ||
            (((alistLookup c1State.transfers id).bind (fun t => t.isBondable))
              == some false))) :=
  ⟨rfl, by decide,
   settledState_iff c1State "0xr" "0xtx" 7 c1Root ["0xa", "0xb"] rfl rfl (by decide)
     (by decide)⟩

/-! ## Claim C4 -/

theorem jsShl1_eq_pow (k : Nat) (hk : k ≤ 30) : jsShl1 k = 2 ^ k := by
  unfold jsShl1
  have h1 : k % 32 = k := Nat.mod_eq_of_lt (by omega)
  rw [h1, if_neg (by simp only [beq_iff_eq]; omega)]

/-- Claim C4 as amended: for backoff index k at most 30 (the JS shift is a
32-bit operation, so larger indices wrap and the delay formula of the
claim no longer describes the code), a transfer whose last attempt failed
with the bonder-fee-too-low error is excluded for good once
base + 2^k*60000 ms exceeds the 7-day window, and otherwise becomes
eligible exactly when now passes attemptedAt + base + 2^k*60000 ms; for
any other last error the flat base delay applies. -/
theorem backoffEligibility_spec (base now : Int) (f : Option Nat) (item : Transfer)
    (a k : Nat)
    (hbase : unbondedSentEligBase f item = true)
    (hatt : item.bondWithdrawalAttemptedAt = some a) (ha : a ≠ 0)
    (hk : item.withdrawalBondBackoffIndex = some k) (hk30 : k ≤ 30) :
    (item.withdrawalBondTxError = some TxError.BonderFeeTooLow →
      (base + 2 ^ k * 60 * 1000 > OneWeekMs →
        unbondedSentPred base now f item = false) ∧
      (base + 2 ^ k * 60 * 1000 ≤ OneWeekMs →
        (unbondedSentPred base now f item = true ↔
          (a : Int) + (base + 2 ^ k * 60 * 1000) < now))) ∧
    (item.withdrawalBondTxError ≠ some TxError.BonderFeeTooLow →
      (unbondedSentPred base now f item = true ↔ (a : Int) + base < now)) := by
  simp only [unbondedSentEligBase, Bool.and_eq_true, Bool.not_eq_true'] at hbase
  obtain ⟨⟨⟨⟨⟨⟨⟨h1, h2⟩, h3⟩, h4⟩, h5⟩, h6⟩, h7⟩, h8⟩ := hbase
  have hattT : truthyNat item.bondWithdrawalAttemptedAt = true := by
    simp [truthyNat, hatt, ha]
  unfold unbondedSentPred
  rw [if_neg (by simp [h1]), if_neg (by rw [h2]; simp), if_neg (by simp [h3])]
  rw [if_pos hattT]
  constructor
  · intro herr
    rw [if_pos (by simp [herr])]
    simp only [hk, Option.getD_some, jsShl1_eq_pow k hk30]
    constructor
    · intro hbig
      rw [if_pos hbig]
      simp
    · intro hsmall
      rw [if_neg (by omega)]
      simp only [hatt, Option.getD_some]
      simp [h1, h2, h3, h4, h5, h6, h7, h8]
  · intro herr
    rw [if_neg (by
      simp only [beq_iff_eq]
      intro hcontra
      exact herr (by simpa using hcontra))]
    simp only [hatt, Option.getD_some]
    simp [h1, h2, h3, h4, h5, h6, h7, h8]

/-- Claim C4 counterexample: at backoff index 31 the 32-bit JS shift
produces a negative delay, so the transfer is eligible one millisecond
after its last attempt even though the delay formula of the claim,
base + 2^31*60000 ms, exceeds the 7-day window and the claim asserts it
stays ineligible for good (base retry delay fixed at one hour here; the
wrap does not depend on that value). -/
theorem backoffEligibility_cex :
    unbondedSentPred 3600000 1650000000001 none (c4Item 31) = true ∧
    (3600000 : Int) + 2 ^ 31 * 60 * 1000 > OneWeekMs := by
  constructor
  · decide
  · decide

/-- Witness for C4 at index 2 and base delay 1000 ms: the view includes
the transfer exactly when now is past attemptedAt + 1000 + 2^2*60000. -/
theorem backoffEligibility_spec_witness :
    unbondedSentEligBase none (c4Item 2) = true ∧
    (1000 : Int) + 2 ^ 2 * 60 * 1000 ≤ OneWeekMs ∧
    (unbondedSentPred 1000 1650000241001 none (c4Item 2) = true ↔
      (1650000000000 : Int) + (1000 + 2 ^ 2 * 60 * 1000) < 1650000241001) :=
  ⟨by decide, by decide,
   ((backoffEligibility_spec 1000 1650000241001 none (c4Item 2) 1650000000000 2
     (by decide) rfl (by decide) rfl (by decide)).1 rfl).2 (by decide)⟩

/-! ## Claim C5 -/

/-- Claim C5 as amended: the invalid-id table is applied unconditionally
in getUnbondedSentTransfers and in the incompleteness predicate, but not
in getUncommittedTransfers or getBondedTransfersWithoutRoots (see the
counterexample). -/
theorem invalidIds_excluded_spec (base now : Int) (f : Option Nat) (item : Transfer)
    (tid : String) (hid : item.transferId = some tid)
    (hinv : invalidTransferIds.contains tid = true) :
    unbondedSentPred base now f item = false ∧ isItemIncomplete item = false := by
  constructor
  · unfold unbondedSentPred
    by_cases h : truthyStr item.transferId
    · rw [if_neg (by simp [h]),
        if_pos (by simp only [hid, Option.getD_some]; exact hinv)]
    · rw [if_pos (by simp [h])]
  · unfold isItemIncomplete
    by_cases h : truthyStr item.transferId
    · rw [if_neg (by simp [h]),
        if_pos (by simp only [hid, Option.getD_some]; exact hinv)]
    · rw [if_pos (by simp [h])]

/-- Claim C5 counterexample: a transfer whose id sits in the fixed
invalid-id table still passes the getUncommittedTransfers filter and the
getBondedTransfersWithoutRoots filter, and so appears in those two views;
only getUnbondedSentTransfers excludes it. -/
theorem invalidIds_excluded_cex :
    invalidTransferIds.contains c5InvalidId = true ∧
    uncommittedPred none c5Item = true ∧
    bondedWithoutRootsPred none c5Item = true ∧
    getUncommittedTransfers [c5Item] none = [c5Item] ∧
    getBondedTransfersWithoutRoots [c5Item] none = [c5Item] ∧
    getUnbondedSentTransfers 1000 1650000000000 [c5Item] none = [] := by
  refine ⟨by decide, by decide, by decide, by decide, by decide, by decide⟩

/-- Witness for C5 at the first invalid id: the unbonded-sent filter
rejects it and the incompleteness predicate ignores it. -/
theorem invalidIds_excluded_spec_witness :
    c5Item.transferId = some c5InvalidId ∧
    unbondedSentPred 1000 1650000000000 none c5Item = false ∧
    isItemIncomplete c5Item = false :=
  ⟨rfl,
   (invalidIds_excluded_spec 1000 1650000000000 none c5Item c5InvalidId rfl
     (by decide)).1,
   (invalidIds_excluded_spec 1000 1650000000000 none c5Item c5InvalidId rfl
     (by decide)).2⟩

/-! ## Claim C6 -/

theorem not_mem_filter_ne (l : List String) (x : String) :
    x ∉ l.filter (fun y => y != x) := by
  simp [List.mem_filter]

theorem updateIncompleteItem_contains (inc : List String) (item : Transfer)
    (tid : String) (hid : item.transferId = some tid) :
    ((updateIncompleteItem inc item).contains tid = true) ↔
      isItemIncomplete item = true := by
  unfold updateIncompleteItem
  rw [hid]
  by_cases hi : isItemIncomplete item <;> by_cases he : tid ∈ inc <;>
    simp [hi, he, not_mem_filter_ne]

theorem isItemIncomplete_eq (item : Transfer) (tid : String)
    (hid : item.transferId = some tid) (hne : tid ≠ "") :
    isItemIncomplete item
      = (!invalidTransferIds.contains tid && isIncompletePerSpec item) := by
  unfold isItemIncomplete isIncompletePerSpec
  rw [if_neg (by simp [truthyStr, hid, hne])]
  simp only [hid, Option.getD_some]
  by_cases h : invalidTransferIds.contains tid
  · simp [h]
  · simp [h]

/-- Claim C6 as amended: after every completed update, the incomplete
index contains the updated id iff the stored record fails the spec
completeness predicate AND the id is not in the invalid-id table — ids in
the table are exempted from incompleteness tracking, so for them the index
entry is absent even when required fields are missing. -/
theorem incompleteIndex_spec (s : TransfersDbState) (transferId : String) (p : Transfer)
    (hid : transferId ≠ "") :
    (dbUpdate s transferId p).incompletes.contains transferId = true ↔
      (invalidTransferIds.contains transferId = false ∧
        isIncompletePerSpec ((alistLookup (dbUpdate s transferId p).entities
          transferId).getD {}) = true) := by
  have hstored : (alistLookup (dbUpdate s transferId p).entities transferId).getD {}
      = mergeTransfer ((alistLookup s.entities transferId).getD {})
          { p with transferId := some transferId } := by
    show (alistLookup (alistPut s.entities transferId _) transferId).getD {} = _
    rw [alistLookup_put_self]
    rfl
  have hmid : (mergeTransfer ((alistLookup s.entities transferId).getD {})
      { p with transferId := some transferId }).transferId = some transferId := rfl
  have hinc : (dbUpdate s transferId p).incompletes
      = updateIncompleteItem s.incompletes
          (mergeTransfer ((alistLookup s.entities transferId).getD {})
            { p with transferId := some transferId }) := rfl
  rw [hstored, hinc, updateIncompleteItem_contains _ _ _ hmid,
    isItemIncomplete_eq _ _ hmid hid]
  by_cases h : invalidTransferIds.contains transferId <;> simp [h]

/-- Claim C6 counterexample: updating a transfer whose id is in the fixed
invalid-id table stores a record with no chain ids — failing the spec
completeness predicate — yet the incomplete index does not contain the id,
because the source exempts invalid ids from incompleteness tracking. -/
theorem incompleteIndex_cex :
    isIncompletePerSpec
      ((alistLookup (dbUpdate {} c5InvalidId {}).entities c5InvalidId).getD {}) = true ∧
    (dbUpdate {} c5InvalidId {}).incompletes.contains c5InvalidId = false := by
  constructor
  · decide
  · decide

/-- Witness for C6 at a fresh ordinary id: the stored record misses its
chain ids, so the id is present in the incomplete index. -/
theorem incompleteIndex_spec_witness :
    ("0x1234" : String) ≠ "" ∧
    ((dbUpdate {} "0x1234" {}).incompletes.contains "0x1234" = true ↔
      (invalidTransferIds.contains "0x1234" = false ∧
        isIncompletePerSpec ((alistLookup (dbUpdate {} "0x1234" {}).entities
          "0x1234").getD {}) = true)) :=
  ⟨by decide, incompleteIndex_spec {} "0x1234" {} (by decide)⟩

/-! ## Claim C7 -/

theorem mergeField_idem {α : Type} (p old : Option α) :
    mergeField p (mergeField p old) = mergeField p old := by
  cases p <;> rfl

theorem mergeTransfer_idem (old p : Transfer) :
    mergeTransfer (mergeTransfer old p) p = mergeTransfer old p := by
  simp [mergeTransfer, mergeField_idem]

theorem alistPut_put_self {α : Type} (l : List (String × α)) (k : String) (v1 v2 : α) :
    alistPut (alistPut l k v1) k v2 = alistPut l k v2 := by
  induction l with
  | nil => simp [alistPut]
  | cons hd tl ih =>
    obtain ⟨k0, v0⟩ := hd
    by_cases h : k0 == k
    · simp [alistPut, h]
    · simp [alistPut, h, ih]

theorem alistLookup_sortedPut_self {α : Type} (l : List (String × α)) (k : String)
    (v : α) : alistLookup (sortedPut l k v) k = some v := by
  induction l with
  | nil => simp [sortedPut, alistLookup]
  | cons hd tl ih =>
    obtain ⟨k0, v0⟩ := hd
    by_cases h : k == k0
    · simp [sortedPut, h, alistLookup]
    · by_cases h2 : strLt k k0
      · simp [sortedPut, h, h2, alistLookup]
      · have hkk : k ≠ k0 := by simpa using h
        have h3 : (k0 == k) = false := by
          simp only [beq_eq_false_iff_ne, ne_eq]
          exact fun hc => hkk hc.symm
        simp [sortedPut, h, h2, alistLookup, h3, ih]

theorem updateIncompleteItem_idem (inc : List String) (item : Transfer) :
    updateIncompleteItem (updateIncompleteItem inc item) item
      = updateIncompleteItem inc item := by
  unfold updateIncompleteItem
  cases hid : item.transferId with
  | none => rfl
  | some tid =>
    by_cases hi : isItemIncomplete item <;> by_cases he : tid ∈ inc <;>
      simp [hi, he, not_mem_filter_ne]

theorem dbUpdate_subDb_stable (s : TransfersDbState) (transferId : String)
    (p : Transfer) :
    getTimestampedKeyValueForUpdate (dbUpdate s transferId p)
      { p with transferId := some transferId } = none := by
  unfold getTimestampedKeyValueForUpdate
  cases hk : getTimestampedKey { p with transferId := some transferId } with
  | none => rfl
  | some key =>
    have htid : truthyStr ({ p with transferId := some transferId } : Transfer).transferId
        = true := by
      unfold getTimestampedKey at hk
      by_cases hc : truthyNat ({ p with transferId := some transferId } :
          Transfer).transferSentTimestamp &&
          truthyStr ({ p with transferId := some transferId } : Transfer).transferId
      · exact (Bool.and_eq_true _ _).mp hc |>.2
      · rw [if_neg hc] at hk
        exact absurd hk (by simp)
    dsimp only
    rw [if_neg (by simp [htid])]
    have hsub : (dbUpdate s transferId p).subDb
        = match getTimestampedKeyValueForUpdate s { p with transferId := some transferId }
            with
          | some (k, v) => sortedPut s.subDb k v
          | none => s.subDb := rfl
    rw [hsub]
    unfold getTimestampedKeyValueForUpdate
    rw [hk]
    dsimp only
    rw [if_neg (by simp [htid])]
    cases hl : alistLookup s.subDb key with
    | some v => simp [hl]
    | none =>
      dsimp only
      rw [alistLookup_sortedPut_self]

/-- Two TransfersDb states with equal components are equal. -/
theorem transfersDbStateExt (a b : TransfersDbState) (h1 : a.entities = b.entities)
    (h2 : a.subDb = b.subDb) (h3 : a.incompletes = b.incompletes) : a = b := by
  cases a
  cases b
  simp_all

/-- Claim C7: applying the same update twice yields the same stored state
as applying it once — the entity merge, the timestamped-key write (first
write wins, no duplicate entry) and the incomplete-index maintenance are
all idempotent. -/
theorem dbUpdate_idempotent (s : TransfersDbState) (transferId : String) (p : Transfer) :
    dbUpdate (dbUpdate s transferId p) transferId p = dbUpdate s transferId p := by
  apply transfersDbStateExt
  · show alistPut (dbUpdate s transferId p).entities transferId
      (mergeTransfer ((alistLookup (dbUpdate s transferId p).entities transferId).getD {})
        { p with transferId := some transferId })
      = (dbUpdate s transferId p).entities
    have he : (dbUpdate s transferId p).entities
        = alistPut s.entities transferId
            (mergeTransfer ((alistLookup s.entities transferId).getD {})
              { p with transferId := some transferId }) := rfl
    rw [he, alistLookup_put_self]
    show alistPut _ transferId
      (mergeTransfer (mergeTransfer ((alistLookup s.entities transferId).getD {})
        { p with transferId := some transferId })
        { p with transferId := some transferId }) = _
    rw [mergeTransfer_idem, alistPut_put_self]
  · show (match getTimestampedKeyValueForUpdate (dbUpdate s transferId p)
        { p with transferId := some transferId } with
      | some (k, v) => sortedPut (dbUpdate s transferId p).subDb k v
      | none => (dbUpdate s transferId p).subDb)
      = (dbUpdate s transferId p).subDb
    rw [dbUpdate_subDb_stable]
  · have hi : (dbUpdate s transferId p).incompletes
        = updateIncompleteItem s.incompletes
            (mergeTransfer ((alistLookup s.entities transferId).getD {})
              { p with transferId := some transferId }) := rfl
    have he : (dbUpdate s transferId p).entities
        = alistPut s.entities transferId
            (mergeTransfer ((alistLookup s.entities transferId).getD {})
              { p with transferId := some transferId }) := rfl
    show updateIncompleteItem (dbUpdate s transferId p).incompletes
      (mergeTransfer ((alistLookup (dbUpdate s transferId p).entities transferId).getD {})
        { p with transferId := some transferId })
      = (dbUpdate s transferId p).incompletes
    rw [he, alistLookup_put_self, Option.getD_some, hi, mergeTransfer_idem,
      updateIncompleteItem_idem]

/-! ## Claim C8 -/

/-- Claim C8 counterexample: with stored sent timestamps 9 and 10
(different digit counts) and bounds a = 9, b = 10, the range query
compares keys as strings, so transfer:10:b sorts below the lower bound
transfer:9 and transfer:9:a sorts above the upper bound transfer:10~; the
query returns the empty list instead of the two transfers whose
timestamps lie inside the inclusive range. -/
theorem rangeByTime_cex :
    ((alistLookup c8State.entities "a").bind (fun t => t.transferSentTimestamp))
      = some 9 ∧
    ((alistLookup c8State.entities "b").bind (fun t => t.transferSentTimestamp))
      = some 10 ∧
    getTransferIds c8State (some 9) (some 10) = [] ∧
    ([] : List String) ≠ ["a", "b"] := by
  refine ⟨by decide, by decide, by decide, by decide⟩

/-- Claim C8 as amended: the range query is correct — exactly the ids with
timestamp in the inclusive range, in ascending timestamp order — provided
the rendered keys order consistently with the numeric timestamps (true in
particular when the bounds and every stored timestamp have the same
decimal digit count, e.g. genuine 10-digit unix timestamps); the stated
key-order hypotheses are exactly that consistency. With both bounds
omitted the query returns all entity-bucket ids via the structural key
scan. -/
theorem rangeScan_eq (a b : Nat) :
    ∀ entries : List (Nat × String),
      (∀ p ∈ entries, p.2 ≠ "") →
      (∀ p ∈ entries,
        strLe ("transfer:" ++ toString a) (timestampedKeyOf p.1 p.2)
          = decide (a ≤ p.1)) →
      (∀ p ∈ entries,
        strLe (timestampedKeyOf p.1 p.2) ("transfer:" ++ toString b ++ "~")
          = decide (p.1 ≤ b)) →
      ((getKeyValues (entries.map (fun p => (timestampedKeyOf p.1 p.2, p.2)))
          { gte := some ("transfer:" ++ toString a)
            lte := some ("transfer:" ++ toString b ++ "~") }).map
        (fun kv => kv.snd)).filter (fun v => v != "")
      = (entries.filter (fun p => decide (a ≤ p.1) && decide (p.1 ≤ b))).map
          (fun p => p.2) := by
  intro entries
  induction entries with
  | nil => intro _ _ _; rfl
  | cons hd tl ih =>
    intro h1 h2 h3
    have hq : keyInFilter
        { gte := some ("transfer:" ++ toString a)
          lte := some ("transfer:" ++ toString b ++ "~") }
        (timestampedKeyOf hd.1 hd.2)
        = (decide (a ≤ hd.1) && decide (hd.1 ≤ b)) := by
      simp only [keyInFilter]
      rw [h2 hd (by simp), h3 hd (by simp)]
    have hrest := ih (fun p hp => h1 p (by simp [hp]))
      (fun p hp => h2 p (by simp [hp])) (fun p hp => h3 p (by simp [hp]))
    unfold getKeyValues at hrest ⊢
    simp only [List.map_cons, List.filter_cons]
    rw [hq]
    by_cases hc : (decide (a ≤ hd.1) && decide (hd.1 ≤ b)) = true
    · simp only [hc, if_true]
      simp only [List.map_cons, List.filter_cons]
      rw [if_pos (by simpa using h1 hd (by simp))]
      rw [hrest]
    · simp only [Bool.not_eq_true] at hc
      simp only [hc, Bool.false_eq_true, if_false]
      exact hrest

theorem rangeByTime_spec (entries : List (Nat × String))
    (ents : List (String × Transfer)) (inc : List String) (a b : Nat)
    (ha : a ≠ 0) (hb : b ≠ 0)
    (hids : ∀ p ∈ entries, p.2 ≠ "")
    (hgte : ∀ p ∈ entries,
      strLe ("transfer:" ++ toString a) (timestampedKeyOf p.1 p.2)
        = decide (a ≤ p.1))
    (hlte : ∀ p ∈ entries,
      strLe (timestampedKeyOf p.1 p.2) ("transfer:" ++ toString b ++ "~")
        = decide (p.1 ≤ b))
    (hsorted : entries.Pairwise (fun p q => p.1 ≤ q.1)) :
    getTransferIds
        { entities := ents
          subDb := entries.map (fun p => (timestampedKeyOf p.1 p.2, p.2))
          incompletes := inc } (some a) (some b)
      = (entries.filter (fun p => decide (a ≤ p.1) && decide (p.1 ≤ b))).map
          (fun p => p.2) ∧
    ((entries.filter (fun p => decide (a ≤ p.1) && decide (p.1 ≤ b))).map
        (fun p => p.1)).Pairwise (· ≤ ·) ∧
    (∀ s : TransfersDbState,
      (∀ k ∈ s.entities.map (fun kv => kv.fst), k.startsWith "transfer:" = false) →
      getTransferIds s none none = s.entities.map (fun kv => kv.fst)) := by
  have hta : truthyNat (some a) = true := by simp [truthyNat, ha]
  have htb : truthyNat (some b) = true := by simp [truthyNat, hb]
  refine ⟨?_, ?_, ?_⟩
  · unfold getTransferIds
    rw [if_pos (by rw [hta]; simp)]
    rw [if_pos hta, if_pos htb]
    exact rangeScan_eq a b entries hids hgte hlte
  · rw [List.pairwise_map]
    exact (List.Pairwise.filter _ hsorted).imp (fun h => h)
  · intro s hkeys
    unfold getTransferIds
    rw [if_neg (by simp [truthyNat])]
    rw [List.filter_eq_self.mpr (fun x hx => by simp [hkeys x hx])]

/-- Witness for C8 at three 2-digit timestamps and bounds 10..11: the
query returns the first two ids, in timestamp order. -/
theorem rangeByTime_spec_witness :
    (10 : Nat) ≠ 0 ∧
    getTransferIds
        { entities := []
          subDb := [((10 : Nat), "x"), (11, "y"), (12, "z")].map
            (fun p => (timestampedKeyOf p.1 p.2, p.2))
          incompletes := [] } (some 10) (some 11)
      = ([((10 : Nat), "x"), (11, "y"), (12, "z")].filter
          (fun p => decide (10 ≤ p.1) && decide (p.1 ≤ 11))).map (fun p => p.2) :=
  ⟨by decide,
   (rangeByTime_spec [(10, "x"), (11, "y"), (12, "z")] [] [] 10 11 (by decide)
     (by decide) (by decide) (by decide) (by decide) (by decide)).1⟩

end HopVerify
